import Mathlib

/-!
Shallow embedding of the archive-validation and fetch-orchestration core of
the pudl-archiver repository (src/pudl_archiver/archivers/classes.py).

Conventions of the embedding:
* Python exceptions are modelled with `Except PyErr`; code that cannot raise
  is a total function.
* Python ints are `Int`; size ratios computed with true division are `Rat`.
* Python dicts are association lists built by insertion (later writes to an
  existing key update it in place); Python sets of strings are `Finset String`.
* Log-message f-strings are abstracted by the inductive `Note`, one
  constructor per message site, carrying the interpolated data.
-/

/-- Python exception kinds raised by the modelled code paths. -/
inductive PyErr where
  | zeroDivisionError
  | typeError
  | valueError
  | runtimeError
deriving DecidableEq, Repr

/-- A value stored under one key of a resource partition mapping
(`resource.parts` in the source): a list of strings, a bare string, or a
bare integer. Iterating a list yields its items, iterating a string yields
its one-character substrings, and iterating an integer raises TypeError. -/
inductive PartValue where
  | vList (l : List String)
  | vStr (s : String)
  | vInt (n : Int)
deriving DecidableEq, Repr

/-- One manifest entry: the fields of a frictionless resource that
classes.py reads (`name`, `bytes_`, `parts`). -/
structure Resource where
  name : String
  bytes_ : Int
  parts : List (String × PartValue)
deriving DecidableEq, Repr

/-- A manifest (`DataPackage`): the ordered collection of resources.
Dataset-level metadata is never read by the checks, so it is omitted. -/
structure DataPackage where
  resources : List Resource
deriving DecidableEq, Repr

/-- One interpolated log/note message, one constructor per f-string site in
classes.py, carrying the interpolated data. -/
inductive Note where
  | missingFiles (names : Finset String)
  | fileSizeChanged (threshold : Rat) (files : List (String × Rat))
  | datasetSizeChanged (change : Rat) (threshold : Rat)
  | duplicateTimePeriods
  | missingPeriods (key : String) (missing : List Nat)
  | notConfigured
deriving DecidableEq

/-- The result record produced by each check
(`validate.DatasetSpecificValidation`). -/
structure DatasetSpecificValidation where
  name : String
  description : String
  success : Bool
  notes : Option (List Note)
  required_for_run_success : Bool
deriving DecidableEq

/-- The class-level configuration attributes of `AbstractDatasetArchiver`
read by the validation checks. -/
structure Config where
  fail_on_missing_files : Bool
  fail_on_file_size_change : Bool
  allowed_file_rel_diff : Rat
  fail_on_dataset_size_change : Bool
  allowed_dataset_rel_diff : Rat
  fail_on_data_continuity : Bool
deriving DecidableEq, Repr

/-- The default attribute values declared on `AbstractDatasetArchiver`:
thresholds 0.25 and 0.15, all checks fatal. -/
def defaultConfig : Config :=
  ⟨true, true, 1/4, true, 3/20, true⟩

/-- The two recognized time-partition keys (`VALID_PARTITION_RANGES`). -/
def VALID_PARTITION_RANGES : List String := ["year_quarter", "year_month"]

/-- Set of resource names of a manifest, as the source builds it with a set
comprehension over `datapackage.resources`. -/
def resourceNames (dp : DataPackage) : Finset String :=
  (dp.resources.map (·.name)).toFinset

/-- `AbstractDatasetArchiver._check_missing_files`: files present in the
baseline manifest but absent from the new one fail the check. -/
def check_missing_files (cfg : Config) (baseline : Option DataPackage)
    (newDp : DataPackage) : DatasetSpecificValidation :=
  let baseline_resources : Finset String :=
    match baseline with
    | none => ∅
    | some dp => resourceNames dp
  let new_resources := resourceNames newDp
  let missing_files := baseline_resources \ new_resources
  let notes : Option (List Note) :=
    if 0 < missing_files.card then some [Note.missingFiles missing_files] else none
  { name := "Missing file test"
    description := "Check for files from previous version of archive that would be deleted by the new version"
    success := missing_files.card = 0
    notes := notes
    required_for_run_success := cfg.fail_on_missing_files }

/-- Insertion into a Python dict modelled as an association list: an
existing key is updated in place, a new key is appended. -/
def dictInsert : List (String × Int) → String → Int → List (String × Int)
  | [], k, v => [(k, v)]
  | (k', v') :: rest, k, v =>
      if k' = k then (k', v) :: rest else (k', v') :: dictInsert rest k v

/-- The dict comprehension mapping each resource name to its size in bytes. -/
def sizeDict (rs : List Resource) : List (String × Int) :=
  rs.foldl (fun d r => dictInsert d r.name r.bytes_) []

/-- Decidable equality of Except values, so that the modelled fallible
checks can be evaluated at concrete inputs. -/
instance {ε α : Type} [DecidableEq ε] [DecidableEq α] :
    DecidableEq (Except ε α) := fun a b =>
  match a, b with
  | .ok x, .ok y =>
      if h : x = y then .isTrue (by rw [h]) else .isFalse (by simp [h])
  | .error x, .error y =>
      if h : x = y then .isTrue (by rw [h]) else .isFalse (by simp [h])
  | .ok _, .error _ => .isFalse (by simp)
  | .error _, .ok _ => .isFalse (by simp)

/-- Python `abs` on an exact rational. -/
def ratAbs (q : Rat) : Rat := if q < 0 then -q else q

/-- Python true division of two ints, raising ZeroDivisionError on a zero
divisor, otherwise an exact rational. -/
def pyDiv (a b : Int) : Except PyErr Rat :=
  if b = 0 then .error .zeroDivisionError else .ok ((a : Rat) / (b : Rat))

/-- The body of the per-resource loop of `_check_file_size`: for each
baseline dict entry whose name also appears in the new dict, attempt the
relative size change; ZeroDivisionError is caught and the resource skipped;
entries whose change exceeds the threshold are collected. -/
def too_changed_files (cfg : Config) (bd nd : List (String × Int)) :
    List (String × Rat) :=
  bd.filterMap (fun p =>
    match nd.lookup p.1 with
    | none => none
    | some ns =>
        match pyDiv (ns - p.2) p.2 with
        | .error _ => none
        | .ok q =>
            if ratAbs q > cfg.allowed_file_rel_diff then some (p.1, ratAbs q)
            else none)

/-- `AbstractDatasetArchiver._check_file_size`: per-file size drift check.
All arithmetic errors are handled inside, so the check always returns. -/
def check_file_size (cfg : Config) (baseline : Option DataPackage)
    (newDp : DataPackage) : DatasetSpecificValidation :=
  match baseline with
  | none =>
      { name := "Individual file size test"
        description := "Check for files from previous version of archive that have changed in size by more than the allowed file relative difference."
        success := true
        notes := none
        required_for_run_success := cfg.fail_on_file_size_change }
  | some base =>
      let bd := sizeDict base.resources
      let nd := sizeDict newDp.resources
      let tc := too_changed_files cfg bd nd
      { name := "Individual file size test"
        description := "Check for files from previous version of archive that have changed in size by more than the allowed file relative difference."
        success := tc.isEmpty
        notes := if tc.isEmpty then none
                 else some [Note.fileSizeChanged cfg.allowed_file_rel_diff tc]
        required_for_run_success := cfg.fail_on_file_size_change }

/-- Total size in bytes of a manifest, as summed in `_check_dataset_size`. -/
def totalBytes (dp : DataPackage) : Int :=
  (dp.resources.map (·.bytes_)).sum

/-- Python iteration over a partition value, as used by
`dataset_partitions += list(resource.parts.values())[0]`: a list extends
with its items, a string with its one-character substrings, and extending
with an integer raises TypeError. -/
def iteratePartValue : PartValue → Except PyErr (List String)
  | .vList l => .ok l
  | .vStr s => .ok (s.data.map (fun c => String.mk [c]))
  | .vInt _ => .error .typeError

/-- The unpack loop of `_check_data_continuity`: skip resources with an
empty partition mapping; otherwise collect all partition key names and
extend the value list with the first partition value of the resource. -/
def unpackPartitions : List Resource → Except PyErr (List String × List String)
  | [] => .ok ([], [])
  | r :: rest =>
      match r.parts with
      | [] => unpackPartitions rest
      | (k, v) :: more => do
          let vals ← iteratePartValue v
          let (names, parts) ← unpackPartitions rest
          .ok ((k :: more.map (·.1)) ++ names, vals ++ parts)

/-- Code-point lexicographic comparison of character lists, the order
Python uses to compare strings. -/
def charListLt : List Char → List Char → Bool
  | [], [] => false
  | [], _ :: _ => true
  | _ :: _, [] => false
  | a :: as, b :: bs =>
      if a.toNat < b.toNat then true
      else if b.toNat < a.toNat then false
      else charListLt as bs

/-- Python string comparison, code point by code point. -/
def pyStrLt (a b : String) : Bool := charListLt a.data b.data

/-- Python `min` over a list of strings (lexicographic); ValueError on an
empty list. -/
def pyMinStr : List String → Except PyErr String
  | [] => .error .valueError
  | h :: t => .ok (t.foldl (fun m s => if pyStrLt s m then s else m) h)

/-- Python `max` over a list of strings (lexicographic); ValueError on an
empty list. -/
def pyMaxStr : List String → Except PyErr String
  | [] => .error .valueError
  | h :: t => .ok (t.foldl (fun m s => if pyStrLt m s then s else m) h)

/-- Numeric value of a decimal digit character, if it is one. -/
def digitVal (c : Char) : Option Nat :=
  if c.isDigit then some (c.toNat - 48) else none

/-- Timestamp parsing as performed by pandas on the partition strings the
repository uses, mapped to a month index (year * 12 + month, January = 0).
Supported shapes: a quarter string YYYYqN (mapping to the first month of
the quarter) and a month string YYYY-MM. Anything else fails to parse. -/
def parseDate (s : String) : Except PyErr Nat :=
  match s.data with
  | [a, b, c, d, 'q', e] =>
      match digitVal a, digitVal b, digitVal c, digitVal d, digitVal e with
      | some a', some b', some c', some d', some e' =>
          if 1 ≤ e' ∧ e' ≤ 4 then
            .ok ((a' * 1000 + b' * 100 + c' * 10 + d') * 12 + (e' - 1) * 3)
          else .error .valueError
      | _, _, _, _, _ => .error .valueError
  | [a, b, c, d, '-', e, f] =>
      match digitVal a, digitVal b, digitVal c, digitVal d, digitVal e, digitVal f with
      | some a', some b', some c', some d', some e', some f' =>
          if 1 ≤ e' * 10 + f' ∧ e' * 10 + f' ≤ 12 then
            .ok ((a' * 1000 + b' * 100 + c' * 10 + d') * 12 + (e' * 10 + f' - 1))
          else .error .valueError
      | _, _, _, _, _, _ => .error .valueError
  | _ => .error .valueError

/-- `pd.date_range(start, stop, freq)` on month indices: the dates start,
start + step, ... up to stop; empty when stop precedes start. The two
frequencies used are quarter-start (step 3) and month-start (step 1), and
the inputs the repository feeds it are aligned to those steps. -/
def dateRange (start stop step : Nat) : List Nat :=
  if stop < start then []
  else (List.range ((stop - start) / step + 1)).map (fun i => start + step * i)

/-- Parse every partition value string (`pd.to_datetime` on the list). -/
def parseAll : List String → Except PyErr (List Nat)
  | [] => .ok []
  | s :: rest => do
      let d ← parseDate s
      let ds ← parseAll rest
      .ok (d :: ds)

/-- The pandas step for each recognized partition key: quarter-start for
year_quarter, month-start for year_month. -/
def intervalOf (key : String) : Option Nat :=
  if key = "year_quarter" then some 3
  else if key = "year_month" then some 1
  else none

/-- `AbstractDatasetArchiver._check_data_continuity`: verify that the time
partitions of the new manifest are duplicate-free and gap-free. The first
recognized key found wins; with no recognized key the check is skipped and
reported as a pass with an explanatory note. The winner is the first
recognized element of the deduplicated key list; Python iterates a set
here, whose order is only determined when a single recognized key occurs. -/
def check_data_continuity (cfg : Config) (newDp : DataPackage) :
    Except PyErr DatasetSpecificValidation := do
  let (names, parts) ← unpackPartitions newDp.resources
  let mkResult := fun (success : Bool) (notes : Option (List Note)) =>
    ({ name := "Validate data continuity"
       description := "Test that data are continuous and complete"
       success := success
       notes := notes
       required_for_run_success := cfg.fail_on_data_continuity } :
      DatasetSpecificValidation)
  if names.any (fun p => VALID_PARTITION_RANGES.contains p) then
    match (names.dedup.filter (fun p => VALID_PARTITION_RANGES.contains p)).head? with
    | none => .ok (mkResult true none)
    | some partition_to_test =>
        match intervalOf partition_to_test with
        | none => .ok (mkResult true none)
        | some step => do
            let mn ← pyMinStr parts
            let mx ← pyMaxStr parts
            let start ← parseDate mn
            let stop ← parseDate mx
            let expected := dateRange start stop step
            let observed ← parseAll parts
            if ¬ observed.Nodup then
              .ok (mkResult false (some [Note.duplicateTimePeriods]))
            else
              let diff := expected.filter (fun d => ¬ d ∈ observed)
              if diff.isEmpty then .ok (mkResult true none)
              else .ok (mkResult false (some [Note.missingPeriods partition_to_test diff]))
  else
    .ok (mkResult true (some [Note.notConfigured]))

/-- `AbstractDatasetArchiver._check_dataset_size`: aggregate size drift.
The division by the baseline total is not guarded, so a zero baseline total
raises ZeroDivisionError out of the check. -/
def check_dataset_size (cfg : Config) (baseline : Option DataPackage)
    (newDp : DataPackage) : Except PyErr DatasetSpecificValidation :=
  match baseline with
  | none =>
      .ok { name := "Dataset file size test"
            description := "Check if overall archive size has changed by more than the allowed dataset relative difference from last archive."
            success := (0 : Rat) < cfg.allowed_dataset_rel_diff
            notes := none
            required_for_run_success := cfg.fail_on_dataset_size_change }
  | some base => do
      let baseline_size := totalBytes base
      let new_size := totalBytes newDp
      let q ← pyDiv (new_size - baseline_size) baseline_size
      let dataset_size_change := ratAbs q
      .ok { name := "Dataset file size test"
            description := "Check if overall archive size has changed by more than the allowed dataset relative difference from last archive."
            success := dataset_size_change < cfg.allowed_dataset_rel_diff
            notes := if dataset_size_change > cfg.allowed_dataset_rel_diff then
                       some [Note.datasetSizeChanged dataset_size_change
                               cfg.allowed_dataset_rel_diff]
                     else none
            required_for_run_success := cfg.fail_on_dataset_size_change }

/-- `AbstractDatasetArchiver.dataset_validate_archive`: the overridable
hook for dataset-specific checks; the default implementation returns the
empty list. -/
def dataset_validate_archive (_baseline : Option DataPackage)
    (_newDp : DataPackage) : List DatasetSpecificValidation := []

/-- `AbstractDatasetArchiver.validate_dataset`: runs missing-files,
per-file size, aggregate size and continuity checks in order, then appends
the accumulated file-level validations and the results of the
dataset-specific hook. The hook is the dynamically dispatched
`dataset_validate_archive` of the concrete archiver. -/
def validate_dataset (cfg : Config) (baseline : Option DataPackage)
    (newDp : DataPackage) (file_validations : List DatasetSpecificValidation)
    (hook : Option DataPackage → DataPackage → List DatasetSpecificValidation) :
    Except PyErr (List DatasetSpecificValidation) := do
  let m := check_missing_files cfg baseline newDp
  let f := check_file_size cfg baseline newDp
  let d ← check_dataset_size cfg baseline newDp
  let c ← check_data_continuity cfg newDp
  .ok ([m, f, d, c] ++ file_validations ++ hook baseline newDp)

/-- One start-tag event of an HTML document, as delivered by the standard
library parser to `_HyperlinkExtractor.handle_starttag`: the tag name and
its attribute/value pairs. A document is embedded as its start-tag event
stream, the only events the extractor handles. -/
structure TagEvent where
  tag : String
  attrs : List (String × String)
deriving DecidableEq, Repr

/-- `_HyperlinkExtractor`: feed the event stream and collect the set of
href attribute values appearing on anchor tags. -/
def extractHyperlinks (events : List TagEvent) : Finset String :=
  events.foldl
    (fun s e =>
      if e.tag = "a" then
        e.attrs.foldl (fun s' p => if p.1 = "href" then insert p.2 s' else s') s
      else s)
    ∅

/-- `AbstractDatasetArchiver.get_hyperlinks` on an already fetched
document: extract all hyperlinks, then, when a filter pattern is supplied,
keep only the links the pattern matches. The compiled regular expression is
embedded as its `search` predicate on strings. -/
def get_hyperlinks (events : List TagEvent)
    (filter_pattern : Option (String → Bool)) : Finset String :=
  let hyperlinks := extractHyperlinks events
  match filter_pattern with
  | none => hyperlinks
  | some p => hyperlinks.filter (fun link => p link = true)

/-- Chunk size used by `download_all_resources`: the concurrency limit when
it is set and truthy (nonzero), otherwise the number of resources. -/
def chunkSize (limit : Option Nat) (k : Nat) : Nat :=
  match limit with
  | none => k
  | some c => if c = 0 then k else c

/-- Python `math.ceil(a / b)` on naturals (exact ceiling division); the
caller checks for a zero divisor. -/
def pyCeilDiv (a b : Nat) : Nat := (a + b - 1) / b

/-- The chunk list a chunk size carves a resource list into:
`resources[i * chunksize : (i + 1) * chunksize]` for each chunk index. -/
def chunksWith (cs : Nat) (resources : List α) (numChunks : Nat) :
    List (List α) :=
  (List.range numChunks).map (fun i => (resources.drop (i * cs)).take cs)

/-- The batching logic of `AbstractDatasetArchiver.download_all_resources`:
split the resource list into chunks of the chunk size. With no concurrency
limit and an empty resource list the chunk size is zero and the division
raises ZeroDivisionError, exactly as `len(resources) / chunksize` does. -/
def resource_chunks (limit : Option Nat) (resources : List α) :
    Except PyErr (List (List α)) :=
  let cs := chunkSize limit resources.length
  if cs = 0 then .error .zeroDivisionError
  else .ok (chunksWith cs resources (pyCeilDiv resources.length cs))

/-- The retry loop of `AbstractDatasetArchiver.download_zipfile`, started
at attempt index `i`: `downloads j` is the file content produced by the
j-th call to `download_file` and `is_zipfile` the zipfile validity test.
Returns the RuntimeError or success, paired with the total number of
`download_file` calls made. -/
def download_zipfile_from (downloads : Nat → α) (is_zipfile : α → Bool) :
    Nat → Nat → Except PyErr Unit × Nat
  | 0, i => (.error .runtimeError, i)
  | n + 1, i =>
      if is_zipfile (downloads i) then (.ok (), i + 1)
      else download_zipfile_from downloads is_zipfile n (i + 1)

/-- `AbstractDatasetArchiver.download_zipfile`: attempt up to `retries`
downloads, returning as soon as one produces a valid zipfile and raising
RuntimeError when none does. -/
def download_zipfile (downloads : Nat → α) (is_zipfile : α → Bool)
    (retries : Nat) : Except PyErr Unit × Nat :=
  download_zipfile_from downloads is_zipfile retries 0

/-- Helper to build a manifest resource. -/
def mkRes (name : String) (size : Int) (parts : List (String × PartValue)) :
    Resource :=
  ⟨name, size, parts⟩

/-- Quarterly manifest covering 1995q1 through 1997q2, mirroring the
repository unit-test fixture. -/
def dpQuarterOk : DataPackage :=
  ⟨[mkRes "epacems-1995.zip" 18392692
      [("year_quarter", .vList ["1995q1", "1995q2", "1995q3", "1995q4"])],
    mkRes "epacems-1996.zip" 18921381
      [("year_quarter", .vList ["1996q1", "1996q2", "1996q3", "1996q4"])],
    mkRes "epacems-1997.zip" 21734463
      [("year_quarter", .vList ["1997q1", "1997q2"])]]⟩

/-- The quarterly manifest with the trailing quarter 1997q1 removed. -/
def dpQuarterFail1 : DataPackage :=
  ⟨[mkRes "epacems-1995.zip" 18392692
      [("year_quarter", .vList ["1995q1", "1995q2", "1995q3", "1995q4"])],
    mkRes "epacems-1996.zip" 18921381
      [("year_quarter", .vList ["1996q1", "1996q2", "1996q3", "1996q4"])],
    mkRes "epacems-1997.zip" 21734463
      [("year_quarter", .vList ["1997q2"])]]⟩

/-- The quarterly manifest with the interior quarter 1996q4 removed. -/
def dpQuarterFail2 : DataPackage :=
  ⟨[mkRes "epacems-1995.zip" 18392692
      [("year_quarter", .vList ["1995q1", "1995q2", "1995q3", "1995q4"])],
    mkRes "epacems-1996.zip" 18921381
      [("year_quarter", .vList ["1996q1", "1996q2", "1996q3"])],
    mkRes "epacems-1997.zip" 21734463
      [("year_quarter", .vList ["1997q1", "1997q2"])]]⟩

/-- A manifest whose single resource carries a scalar integer partition
value, the shape produced by `EiaRECSArchiver.get_year_resources`. -/
def dpScalarYear : DataPackage :=
  ⟨[mkRes "eia-recs-2020.zip" 100 [("year", .vInt 2020)]]⟩

/-- A manifest with only unrecognized partition keys and list or string
values. -/
def dpYearTable : DataPackage :=
  ⟨[mkRes "r0" 10 [("year", .vList ["2020"])],
    mkRes "r1" 20 [("table", .vStr "t1")]]⟩

/-- Baseline with a single resource of 100 bytes. -/
def dpBase100 : DataPackage := ⟨[mkRes "r" 100 []]⟩

/-- New manifest with the same resource grown to 115 bytes: exactly the
default aggregate threshold of relative drift. -/
def dpNew115 : DataPackage := ⟨[mkRes "r" 115 []]⟩

/-- Baseline whose total size is zero. -/
def dpZeroTotal : DataPackage := ⟨[mkRes "r" 0 []]⟩

/-- Matcher for the regular expression piece test_ followed by four digits
followed by a literal dot and zip, anchored at the head of the character
list. -/
def matchTestZipAt : List Char → Bool
  | 't' :: 'e' :: 's' :: 't' :: '_' :: d1 :: d2 :: d3 :: d4 :: '.' :: 'z' :: 'i' :: 'p' :: _ =>
      d1.isDigit && d2.isDigit && d3.isDigit && d4.isDigit
  | _ => false

/-- The `search` predicate of the compiled pattern for test zip names:
true when the pattern matches at some position of the string. -/
def searchTestZip (s : String) : Bool :=
  s.data.tails.any matchTestZipAt

/-- The start-tag event stream of the simple HTML fixture document: a
heading, a paragraph, three anchors and a div. -/
def docSimple : List TagEvent :=
  [⟨"html", []⟩, ⟨"body", []⟩, ⟨"h1", []⟩, ⟨"p", []⟩,
   ⟨"a", [("href", "https://www.fake.link.com/test_2019.zip")]⟩,
   ⟨"div", []⟩,
   ⟨"a", [("href", "https://www.fake.link.com/test_2020.zip")]⟩,
   ⟨"a", [("href", "https://www.fake.link.com/not/a/match/")]⟩]

/-- The set of baseline resource names: empty when the baseline manifest is
absent, as in `_check_missing_files`. -/
def baselineNames : Option DataPackage → Finset String
  | none => ∅
  | some dp => resourceNames dp

/-- Whether a partition value is iterable in Python (lists and strings
are, integers are not). -/
def partIterable : PartValue → Bool
  | .vInt _ => false
  | _ => true

/-- Whether the first partition value of a resource, the one the unpack
loop of `_check_data_continuity` extends the value list with, is iterable.
Resources with an empty partition mapping are skipped, hence counted as
harmless. -/
def firstPartIterable (r : Resource) : Bool :=
  match r.parts with
  | [] => true
  | (_, v) :: _ => partIterable v

/-- Index of the first download attempt that produces a valid zipfile
within the allowed number of attempts, if any. -/
def first_valid (downloads : Nat → α) (is_zipfile : α → Bool) (retries : Nat) :
    Option Nat :=
  (List.range retries).find? (fun i => is_zipfile (downloads i))

/-- A configuration with whole-number thresholds, used to evaluate the
checks at concrete inputs. -/
def cfgOne : Config := ⟨true, true, 1, true, 1, true⟩

/-- The result `_check_dataset_size` returns when the baseline manifest is
absent and the threshold is positive. -/
def dsizeResultNone : DatasetSpecificValidation :=
  ⟨"Dataset file size test",
   "Check if overall archive size has changed by more than the allowed dataset relative difference from last archive.",
   true, none, true⟩

/-- The result `_check_data_continuity` returns when no recognized
time-partition key is present. -/
def continuityNotConfigured : DatasetSpecificValidation :=
  ⟨"Validate data continuity", "Test that data are continuous and complete",
   true, some [Note.notConfigured], true⟩

/-- Python abs on rationals agrees with the mathematical absolute value. -/
theorem ratAbs_eq_abs (q : Rat) : ratAbs q = |q| := by
  rcases lt_or_le q 0 with h | h
  · rw [ratAbs, if_pos h, abs_of_neg h]
  · rw [ratAbs, if_neg (not_lt.mpr h), abs_of_nonneg h]

/-- Membership in the collection of too-changed files: exactly the names
present in both size dicts whose baseline size is nonzero and whose
relative size change exceeds the configured threshold. -/
theorem mem_too_changed_files (cfg : Config) (bd nd : List (String × Int))
    (k : String) (c : Rat) :
    (k, c) ∈ too_changed_files cfg bd nd ↔
      ∃ bs ns : Int, (k, bs) ∈ bd ∧ nd.lookup k = some ns ∧ bs ≠ 0 ∧
        |((ns : Rat) - bs) / bs| > cfg.allowed_file_rel_diff ∧
        c = |((ns : Rat) - bs) / bs| := by
  have hcast : ∀ ns bs : Int, (((ns - bs : Int) : Rat)) / ((bs : Int) : Rat) =
      ((ns : Rat) - bs) / bs := by
    intro ns bs
    push_cast
    ring
  rw [too_changed_files, List.mem_filterMap]
  constructor
  · rintro ⟨⟨k', bs⟩, hmem, hf⟩
    dsimp only at hf
    cases hnd : nd.lookup k' with
    | none => rw [hnd] at hf; exact absurd hf (by simp)
    | some ns =>
        rw [hnd] at hf
        by_cases hz : bs = 0
        · rw [hz] at hf; simp [pyDiv] at hf
        · simp only [pyDiv, hz, if_false] at hf
          rw [ratAbs_eq_abs, hcast] at hf
          by_cases hgt : |((ns : Rat) - bs) / bs| > cfg.allowed_file_rel_diff
          · rw [if_pos hgt] at hf
            simp only [Option.some.injEq, Prod.mk.injEq] at hf
            obtain ⟨hk, hc⟩ := hf
            subst hk
            exact ⟨bs, ns, hmem, hnd, hz, hgt, hc.symm⟩
          · rw [if_neg hgt] at hf
            exact absurd hf (by simp)
  · rintro ⟨bs, ns, hmem, hnd, hz, hgt, hc⟩
    refine ⟨(k, bs), hmem, ?_⟩
    dsimp only
    rw [hnd]
    simp only [pyDiv, hz, if_false]
    rw [ratAbs_eq_abs, hcast, if_pos hgt, hc]

/-- Closed form of the download retry loop started at attempt index i. -/
theorem download_zipfile_from_eq (d : Nat → α) (v : α → Bool) :
    ∀ (n i : Nat), download_zipfile_from d v n i =
      (match (List.range' i n).find? (fun j => v (d j)) with
       | some j => (Except.ok (), j + 1)
       | none => (Except.error PyErr.runtimeError, i + n))
  | 0, i => by simp [download_zipfile_from]
  | n + 1, i => by
      rw [download_zipfile_from, List.range'_succ]
      by_cases h : v (d i)
      · simp [h, List.find?]
      · simp [h, List.find?, download_zipfile_from_eq d v n (i + 1)]
        rw [Nat.add_assoc, Nat.add_comm 1 n]

/-- Pairwise permuted lists of lists have permuted concatenations. -/
theorem forall₂_perm_flatten : ∀ {l₁ l₂ : List (List α)},
    List.Forall₂ List.Perm l₁ l₂ → l₁.flatten.Perm l₂.flatten
  | _, _, List.Forall₂.nil => List.Perm.refl _
  | _, _, List.Forall₂.cons h hs => by
      simpa using List.Perm.append h (forall₂_perm_flatten hs)

/-- Chunking a list into enough chunks of positive size and concatenating
the chunks yields the original list. -/
theorem chunksWith_flatten (cs : Nat) (hcs : 0 < cs) :
    ∀ (n : Nat) (rs : List α), rs.length ≤ n * cs → (chunksWith cs rs n).flatten = rs
  | 0, rs, h => by
      have : rs = [] := List.eq_nil_of_length_eq_zero (by omega)
      simp [chunksWith, this]
  | n + 1, rs, h => by
      have hstep : ∀ i : Nat, (rs.drop ((i + 1) * cs)).take cs =
          ((rs.drop cs).drop (i * cs)).take cs := by
        intro i
        rw [List.drop_drop]
        ring_nf
      have hlen : (rs.drop cs).length ≤ n * cs := by
        simp only [List.length_drop]
        rw [Nat.succ_mul] at h
        omega
      calc (chunksWith cs rs (n + 1)).flatten
        = ((List.range (n + 1)).map (fun i => (rs.drop (i * cs)).take cs)).flatten := rfl
      _ = rs.take cs ++ (chunksWith cs (rs.drop cs) n).flatten := by
          rw [List.range_succ_eq_map]
          simp only [List.map_cons, List.map_map, List.flatten_cons, Nat.zero_mul,
            List.drop_zero, chunksWith]
          congr 1
          · congr 1
            apply List.map_congr_left
            intro i _
            simp only [Function.comp]
            exact hstep i
      _ = rs.take cs ++ rs.drop cs := by
          rw [chunksWith_flatten cs hcs n (rs.drop cs) hlen]
      _ = rs := List.take_append_drop cs rs

/-- Ceiling division by a positive chunk size covers the whole list. -/
theorem length_le_ceilDiv_mul (k cs : Nat) (hcs : 0 < cs) :
    k ≤ pyCeilDiv k cs * cs := by
  have h1 := Nat.div_add_mod (k + cs - 1) cs
  have h2 : (k + cs - 1) % cs < cs := Nat.mod_lt _ hcs
  simp only [pyCeilDiv]
  rw [Nat.mul_comm]
  omega

/-- When the first partition value of every resource is iterable, the
unpack loop succeeds and every collected key name stems from the partition
mapping of some resource. -/
theorem unpackPartitions_ok (rs : List Resource)
    (h1 : rs.all firstPartIterable = true) :
    ∃ names parts, unpackPartitions rs = Except.ok (names, parts) ∧
      ∀ k ∈ names, ∃ r ∈ rs, ∃ p ∈ r.parts, p.1 = k := by
  induction rs with
  | nil => exact ⟨[], [], rfl, by simp⟩
  | cons r rest ih =>
      rw [List.all_cons, Bool.and_eq_true] at h1
      obtain ⟨names, parts, hok, hkeys⟩ := ih h1.2
      cases hp : r.parts with
      | nil =>
          refine ⟨names, parts, ?_, ?_⟩
          · rw [unpackPartitions, hp]
            exact hok
          · intro k hk
            obtain ⟨r', hr', hrest⟩ := hkeys k hk
            exact ⟨r', List.mem_cons_of_mem _ hr', hrest⟩
      | cons p more =>
          obtain ⟨k0, v0⟩ := p
          have hv : partIterable v0 = true := by
            have := h1.1
            rw [firstPartIterable, hp] at this
            exact this
          have hvals : ∃ vals, iteratePartValue v0 = Except.ok vals := by
            cases v0 with
            | vList l => exact ⟨l, rfl⟩
            | vStr s => exact ⟨s.data.map (fun ch => String.mk [ch]), rfl⟩
            | vInt n => simp [partIterable] at hv
          obtain ⟨vals, hvals⟩ := hvals
          refine ⟨(k0 :: more.map (·.1)) ++ names, vals ++ parts, ?_, ?_⟩
          · rw [unpackPartitions, hp]
            simp only [bind, Except.bind, hvals, hok]
          · intro k hk
            rw [List.mem_append] at hk
            cases hk with
            | inl hk =>
                refine ⟨r, List.mem_cons_self r rest, ?_⟩
                rw [List.mem_cons] at hk
                cases hk with
                | inl hk => exact ⟨(k0, v0), by rw [hp]; exact List.mem_cons_self _ _, hk.symm⟩
                | inr hk =>
                    obtain ⟨p', hp', hpk⟩ := List.mem_map.mp hk
                    exact ⟨p', by rw [hp]; exact List.mem_cons_of_mem _ hp', hpk⟩
            | inr hk =>
                obtain ⟨r', hr', hrest⟩ := hkeys k hk
                exact ⟨r', List.mem_cons_of_mem _ hr', hrest⟩

/-- Membership in the attribute fold of the hyperlink extractor. -/
theorem mem_attrFold (attrs : List (String × String)) (acc : Finset String)
    (s : String) :
    s ∈ attrs.foldl (fun s' p => if p.1 = "href" then insert p.2 s' else s') acc ↔
      s ∈ acc ∨ ("href", s) ∈ attrs := by
  induction attrs generalizing acc with
  | nil => simp
  | cons p rest ih =>
      obtain ⟨a, v⟩ := p
      rw [List.foldl_cons]
      by_cases ha : a = "href"
      · subst ha
        rw [if_pos rfl, ih, Finset.mem_insert, List.mem_cons, Prod.mk.injEq]
        tauto
      · rw [if_neg (by simpa using ha), ih, List.mem_cons, Prod.mk.injEq]
        constructor
        · intro h
          cases h with
          | inl h => exact Or.inl h
          | inr h => exact Or.inr (Or.inr h)
        · intro h
          rcases h with h | hmid | h
          · exact Or.inl h
          · exact absurd hmid.1.symm ha
          · exact Or.inr h

/-- Membership in the event fold of the hyperlink extractor. -/
theorem mem_extract_aux (events : List TagEvent) (acc : Finset String) (s : String) :
    s ∈ events.foldl
      (fun st e =>
        if e.tag = "a" then
          e.attrs.foldl (fun s' p => if p.1 = "href" then insert p.2 s' else s') st
        else st) acc ↔
      s ∈ acc ∨ ∃ e ∈ events, e.tag = "a" ∧ ("href", s) ∈ e.attrs := by
  induction events generalizing acc with
  | nil => simp
  | cons e rest ih =>
      rw [List.foldl_cons]
      by_cases he : e.tag = "a"
      · rw [if_pos he, ih, mem_attrFold]
        simp only [List.mem_cons]
        constructor
        · rintro ((h | h) | h)
          · exact Or.inl h
          · exact Or.inr ⟨e, Or.inl rfl, he, h⟩
          · obtain ⟨e', he', hh⟩ := h
            exact Or.inr ⟨e', Or.inr he', hh⟩
        · rintro (h | ⟨e', (rfl | he'), hk, hh⟩)
          · exact Or.inl (Or.inl h)
          · exact Or.inl (Or.inr hh)
          · exact Or.inr ⟨e', he', hk, hh⟩
      · rw [if_neg he, ih]
        simp only [List.mem_cons]
        constructor
        · rintro (h | ⟨e', he', hk, hh⟩)
          · exact Or.inl h
          · exact Or.inr ⟨e', Or.inr he', hk, hh⟩
        · rintro (h | ⟨e', (rfl | he'), hk, hh⟩)
          · exact Or.inl h
          · exact absurd hk he
          · exact Or.inr ⟨e', he', hk, hh⟩

/-- Claim C1, counterexample: with the concurrency ceiling unset and zero
tasks yielded by get_resources, the batching logic of
download_all_resources computes a chunk size of zero and the chunk-count
division raises ZeroDivisionError, so the claim that the batching logic
never raises for K = 0 with the ceiling unset is false on the code. -/
theorem claim_C1_counterexample :
    resource_chunks none ([] : List Nat) = Except.error PyErr.zeroDivisionError := by
  decide

/-- Claim C1, amended: whenever the chunk size is nonzero (the ceiling is
a positive integer, or it is unset and at least one task was yielded), the
batching logic does not raise, the chunks concatenate to exactly the
submitted task list, and any interleaving that permutes each chunk (the
completion order of the tasks inside one batch) yields a permutation of
the submitted tasks: exactly K results, each submitted task appearing
exactly once. -/
theorem claim_C1_amended {α : Type} (limit : Option Nat) (rs : List α)
    (out : List (List α)) (h : chunkSize limit rs.length ≠ 0)
    (hout : List.Forall₂ List.Perm
      (chunksWith (chunkSize limit rs.length) rs
        (pyCeilDiv rs.length (chunkSize limit rs.length))) out) :
    resource_chunks limit rs =
      Except.ok (chunksWith (chunkSize limit rs.length) rs
        (pyCeilDiv rs.length (chunkSize limit rs.length)))
    ∧ (chunksWith (chunkSize limit rs.length) rs
        (pyCeilDiv rs.length (chunkSize limit rs.length))).flatten = rs
    ∧ out.flatten.Perm rs
    ∧ out.flatten.length = rs.length := by
  have hcs : 0 < chunkSize limit rs.length := Nat.pos_of_ne_zero h
  have hjoin : (chunksWith (chunkSize limit rs.length) rs
      (pyCeilDiv rs.length (chunkSize limit rs.length))).flatten = rs :=
    chunksWith_flatten _ hcs _ _ (length_le_ceilDiv_mul _ _ hcs)
  have hperm : out.flatten.Perm rs := by
    have := forall₂_perm_flatten hout
    rw [hjoin] at this
    exact this.symm
  refine ⟨?_, hjoin, hperm, hperm.length_eq⟩
  simp [resource_chunks, h]

/-- Claim C1, witness: five tasks with a ceiling of two are carved into
batches of sizes two, two and one; permuting each batch by completion
order still yields every task exactly once. -/
theorem claim_C1_witness :
    chunkSize (some 2) ([10, 20, 30, 40, 50] : List Nat).length ≠ 0
    ∧ List.Forall₂ List.Perm
        (chunksWith (chunkSize (some 2) ([10, 20, 30, 40, 50] : List Nat).length)
          [10, 20, 30, 40, 50]
          (pyCeilDiv ([10, 20, 30, 40, 50] : List Nat).length
            (chunkSize (some 2) ([10, 20, 30, 40, 50] : List Nat).length)))
        [[20, 10], [30, 40], [50]]
    ∧ ([[20, 10], [30, 40], [50]] : List (List Nat)).flatten.Perm [10, 20, 30, 40, 50]
    ∧ ([[20, 10], [30, 40], [50]] : List (List Nat)).flatten.length =
        ([10, 20, 30, 40, 50] : List Nat).length := by
  have hf : List.Forall₂ List.Perm
      (chunksWith (chunkSize (some 2) ([10, 20, 30, 40, 50] : List Nat).length)
        [10, 20, 30, 40, 50]
        (pyCeilDiv ([10, 20, 30, 40, 50] : List Nat).length
          (chunkSize (some 2) ([10, 20, 30, 40, 50] : List Nat).length)))
      [[20, 10], [30, 40], [50]] := by
    show List.Forall₂ List.Perm [[10, 20], [30, 40], [50]] [[20, 10], [30, 40], [50]]
    refine List.Forall₂.cons (by decide) (List.Forall₂.cons (by decide)
      (List.Forall₂.cons (by decide) List.Forall₂.nil))
  have h := claim_C1_amended (some 2) ([10, 20, 30, 40, 50] : List Nat)
    [[20, 10], [30, 40], [50]] (by decide) hf
  exact ⟨by decide, hf, h.2.2.1, h.2.2.2⟩

/-- Claim C2, counterexample: with the default threshold of fifteen
percent, a baseline of total size 100 and a new total of 115 produce a
relative drift exactly equal to the threshold; the claim says such a drift
passes, but the check reports failure, because the code requires the drift
to be strictly below the threshold for success. -/
theorem claim_C2_counterexample :
    ((check_dataset_size defaultConfig (some dpBase100) dpNew115).map (·.success) =
      Except.ok false)
    ∧ ¬ (|((totalBytes dpNew115 : Rat) - totalBytes dpBase100) / totalBytes dpBase100| >
          defaultConfig.allowed_dataset_rel_diff) := by
  constructor
  · simp only [check_dataset_size, totalBytes, dpBase100, dpNew115, mkRes, pyDiv, ratAbs,
      defaultConfig, Except.map, bind, Except.bind, List.map, List.sum]
    norm_num
  · simp only [totalBytes, dpBase100, dpNew115, mkRes, defaultConfig, List.map, List.sum]
    norm_num
    rw [abs_of_nonneg]
    norm_num

/-- Claim C2, amended: for every non-null baseline with nonzero total
size, the aggregate size check succeeds exactly when the relative drift is
strictly below the configured threshold, so a drift exactly equal to the
threshold fails rather than passes; with the baseline null the drift is
treated as zero and the check passes for any positive threshold; the
default threshold is fifteen percent. -/
theorem claim_C2_amended (cfg : Config) (base newDp : DataPackage)
    (h : totalBytes base ≠ 0) :
    ((check_dataset_size cfg (some base) newDp).map (·.success) =
      Except.ok (decide
        (|((totalBytes newDp : Rat) - totalBytes base) / totalBytes base| <
          cfg.allowed_dataset_rel_diff)))
    ∧ (check_dataset_size cfg none newDp).map (·.success) =
        Except.ok (decide ((0 : Rat) < cfg.allowed_dataset_rel_diff))
    ∧ defaultConfig.allowed_dataset_rel_diff = 3/20 := by
  refine ⟨?_, rfl, rfl⟩
  have hcast : (((totalBytes newDp - totalBytes base : Int) : Rat)) /
      ((totalBytes base : Int) : Rat) =
      ((totalBytes newDp : Rat) - totalBytes base) / totalBytes base := by
    push_cast
    ring
  simp only [check_dataset_size, pyDiv, h, if_false, bind, Except.bind, Except.map,
    ratAbs_eq_abs, hcast]

/-- Claim C2, witness: the amended statement evaluated at the baseline of
total 100 and new total 115 under the default configuration. -/
theorem claim_C2_witness :
    totalBytes dpBase100 ≠ 0
    ∧ (((check_dataset_size defaultConfig (some dpBase100) dpNew115).map (·.success) =
        Except.ok (decide
          (|((totalBytes dpNew115 : Rat) - totalBytes dpBase100) / totalBytes dpBase100| <
            defaultConfig.allowed_dataset_rel_diff)))
      ∧ (check_dataset_size defaultConfig none dpNew115).map (·.success) =
          Except.ok (decide ((0 : Rat) < defaultConfig.allowed_dataset_rel_diff))
      ∧ defaultConfig.allowed_dataset_rel_diff = 3/20) :=
  ⟨by decide, claim_C2_amended defaultConfig dpBase100 dpNew115 (by decide)⟩

/-- Claim C3, counterexample: a baseline manifest whose resource sizes sum
to zero makes the division inside the aggregate size check raise
ZeroDivisionError, which is not caught: the check returns no
ValidationResult there, contradicting the claim that zero-division inside
the manifest differ is always converted to a fallback at the point of
detection. -/
theorem claim_C3_counterexample :
    check_dataset_size defaultConfig (some dpZeroTotal) dpNew115 =
      Except.error PyErr.zeroDivisionError := by
  decide

/-- Claim C3, amended: inside the per-file size check a zero baseline size
raises ZeroDivisionError locally, is caught, and the resource is skipped
(a leading zero-size entry changes nothing), so that check always returns
a result; but inside the aggregate size check the division is unguarded:
it returns a result exactly when the baseline total is nonzero and raises
an uncaught ZeroDivisionError exactly when the baseline total is zero. -/
theorem claim_C3_amended (cfg : Config) (base newDp : DataPackage)
    (bd nd : List (String × Int)) (k : String) :
    (check_dataset_size cfg (some base) newDp = Except.error PyErr.zeroDivisionError ↔
      totalBytes base = 0)
    ∧ ((check_dataset_size cfg (some base) newDp).isOk = true ↔ totalBytes base ≠ 0)
    ∧ (check_dataset_size cfg none newDp).isOk = true
    ∧ too_changed_files cfg ((k, 0) :: bd) nd = too_changed_files cfg bd nd := by
  have hsplit : ∀ b : DataPackage, totalBytes b ≠ 0 →
      (check_dataset_size cfg (some b) newDp).isOk = true := by
    intro b hb
    simp only [check_dataset_size, pyDiv, hb, if_false, bind, Except.bind, Except.isOk,
      Except.toBool]
  constructor
  · by_cases hz : totalBytes base = 0
    · simp [check_dataset_size, pyDiv, hz, bind, Except.bind]
    · simp [check_dataset_size, pyDiv, hz, bind, Except.bind]
  constructor
  · by_cases hz : totalBytes base = 0
    · simp only [check_dataset_size, pyDiv, hz, if_true, bind, Except.bind, Except.isOk,
        Except.toBool]
      simp [hz]
    · simp [hsplit base hz, hz]
  constructor
  · simp [check_dataset_size, Except.isOk, Except.toBool]
  · cases hnd : nd.lookup k with
    | none => simp [too_changed_files, hnd]
    | some ns => simp [too_changed_files, hnd, pyDiv]

/-- Claim C4, counterexample: a new manifest whose only resource carries
the scalar integer partition mapping of year to 2020, the shape produced
by the EIA RECS archiver, makes the unpack loop of the continuity check
raise TypeError while extending the partition list, before the key names
are ever inspected; the claim that the check never raises for manifests
without a recognized time-partition key, whatever the shape of the
values, is therefore false on the code. -/
theorem claim_C4_counterexample :
    check_data_continuity defaultConfig dpScalarYear = Except.error PyErr.typeError := by
  decide

/-- Claim C4, amended: for every new manifest in which the first partition
value of every resource is iterable (a list or a string, not a bare
integer) and no partition key is a recognized time-partition kind, the
continuity check does not raise and returns a pass together with the note
that the test was not run. -/
theorem claim_C4_amended (cfg : Config) (newDp : DataPackage)
    (h1 : newDp.resources.all firstPartIterable = true)
    (h2 : newDp.resources.all
      (fun r => r.parts.all (fun p => !(VALID_PARTITION_RANGES.contains p.1))) = true) :
    check_data_continuity cfg newDp =
      Except.ok ⟨"Validate data continuity", "Test that data are continuous and complete",
        true, some [Note.notConfigured], cfg.fail_on_data_continuity⟩ := by
  obtain ⟨names, parts, hok, hkeys⟩ := unpackPartitions_ok newDp.resources h1
  have hany : names.any (fun p => VALID_PARTITION_RANGES.contains p) = false := by
    rw [List.any_eq_false]
    intro k hk
    obtain ⟨r, hr, p, hp, hpk⟩ := hkeys k hk
    rw [List.all_eq_true] at h2
    have := h2 r hr
    rw [List.all_eq_true] at this
    have := this p hp
    rw [hpk] at this
    simpa using this
  rw [check_data_continuity]
  simp only [bind, Except.bind, hok, hany]
  simp

/-- Claim C4, witness: the amended statement evaluated at a manifest with
a list-valued year partition and a string-valued table partition, neither
key recognized. -/
theorem claim_C4_witness :
    dpYearTable.resources.all firstPartIterable = true
    ∧ dpYearTable.resources.all
        (fun r => r.parts.all (fun p => !(VALID_PARTITION_RANGES.contains p.1))) = true
    ∧ check_data_continuity defaultConfig dpYearTable =
        Except.ok ⟨"Validate data continuity",
          "Test that data are continuous and complete",
          true, some [Note.notConfigured], defaultConfig.fail_on_data_continuity⟩ :=
  ⟨by decide, by decide, claim_C4_amended defaultConfig dpYearTable (by decide) (by decide)⟩

/-- Claim C5: the missing-files check succeeds exactly when every baseline
resource name is also present in the new manifest (vacuously with a null
baseline), and on failure the notes list exactly the set of missing
names. -/
theorem claim_C5 (cfg : Config) (baseline : Option DataPackage)
    (newDp : DataPackage) :
    ((check_missing_files cfg baseline newDp).success = true ↔
      baselineNames baseline ⊆ resourceNames newDp)
    ∧ ((check_missing_files cfg baseline newDp).notes =
        if baselineNames baseline \ resourceNames newDp = ∅ then none
        else some [Note.missingFiles (baselineNames baseline \ resourceNames newDp)])
    ∧ (check_missing_files cfg none newDp).success = true := by
  have hb : ∀ b, (match b with
      | none => (∅ : Finset String)
      | some dp => resourceNames dp) = baselineNames b := by
    intro b; cases b <;> rfl
  constructor
  · simp only [check_missing_files, hb]
    rw [decide_eq_true_eq, Finset.card_eq_zero, Finset.sdiff_eq_empty_iff_subset]
  constructor
  · simp only [check_missing_files, hb]
    by_cases h : baselineNames baseline \ resourceNames newDp = ∅
    · simp [h]
    · have : 0 < (baselineNames baseline \ resourceNames newDp).card :=
        Finset.card_pos.mpr (Finset.nonempty_iff_ne_empty.mpr h)
      simp [h, this]
  · simp only [check_missing_files]
    simp [Finset.empty_sdiff]

/-- Claim C6: with a non-null baseline the per-file size check fails
exactly when some resource name recorded in both size dicts has nonzero
baseline size and relative drift strictly above the threshold; zero-size
baseline entries and names present on one side only can never cause
failure; with a null baseline the check passes; the default threshold is
one quarter. -/
theorem claim_C6 (cfg : Config) (base newDp : DataPackage) :
    ((check_file_size cfg (some base) newDp).success = false ↔
      ∃ (name : String) (bs ns : Int),
        (name, bs) ∈ sizeDict base.resources ∧
        (sizeDict newDp.resources).lookup name = some ns ∧ bs ≠ 0 ∧
        |((ns : Rat) - bs) / bs| > cfg.allowed_file_rel_diff)
    ∧ (check_file_size cfg none newDp).success = true
    ∧ defaultConfig.allowed_file_rel_diff = 1/4 := by
  refine ⟨?_, rfl, rfl⟩
  simp only [check_file_size]
  rw [Bool.eq_false_iff]
  constructor
  · intro h
    have hne : too_changed_files cfg (sizeDict base.resources)
        (sizeDict newDp.resources) ≠ [] := by
      intro hnil
      exact h (by simp [hnil])
    obtain ⟨⟨k, c⟩, hmem⟩ := List.exists_mem_of_ne_nil _ hne
    obtain ⟨bs, ns, h1, h2, h3, h4, _⟩ :=
      (mem_too_changed_files cfg _ _ k c).mp hmem
    exact ⟨k, bs, ns, h1, h2, h3, h4⟩
  · rintro ⟨name, bs, ns, h1, h2, h3, h4⟩ hemp
    have hmem : (name, |((ns : Rat) - bs) / bs|) ∈
        too_changed_files cfg (sizeDict base.resources) (sizeDict newDp.resources) :=
      (mem_too_changed_files cfg _ _ name _).mpr ⟨bs, ns, h1, h2, h3, h4, rfl⟩
    rw [List.isEmpty_iff] at hemp
    rw [hemp] at hmem
    exact absurd hmem (by simp)

/-- Claim C7: on the quarterly manifest covering 1995q1 through 1997q2 the
continuity check passes; removing the trailing quarter 1997q1 makes it
fail with a note naming exactly the missing quarter; removing the interior
quarter 1996q4 also makes it fail. The missing period is reported as the
month index of January 1997. -/
theorem claim_C7 :
    ((check_data_continuity defaultConfig dpQuarterOk).map (·.success) = Except.ok true)
    ∧ (check_data_continuity defaultConfig dpQuarterFail1 =
        Except.ok ⟨"Validate data continuity",
          "Test that data are continuous and complete", false,
          some [Note.missingPeriods "year_quarter" [1997 * 12]], true⟩)
    ∧ ((check_data_continuity defaultConfig dpQuarterFail2).map (·.success) =
        Except.ok false) := by
  refine ⟨by decide, by decide, by decide⟩

/-- Claim C8: a string is extracted as a hyperlink exactly when it is the
href attribute value of some anchor start tag; with a filter pattern the
result is exactly the matching subset, without one it is the full set; on
the fixture document with three anchors, the pattern for test zip names
keeps exactly the two matching URLs, and no pattern yields all three. -/
theorem claim_C8 :
    (∀ (events : List TagEvent) (s : String),
      s ∈ extractHyperlinks events ↔
        ∃ e ∈ events, e.tag = "a" ∧ ("href", s) ∈ e.attrs)
    ∧ (∀ (events : List TagEvent) (p : String → Bool),
        get_hyperlinks events (some p) =
          (extractHyperlinks events).filter (fun link => p link = true))
    ∧ (∀ events : List TagEvent, get_hyperlinks events none = extractHyperlinks events)
    ∧ get_hyperlinks docSimple (some searchTestZip) =
        ({"https://www.fake.link.com/test_2019.zip",
          "https://www.fake.link.com/test_2020.zip"} : Finset String)
    ∧ get_hyperlinks docSimple none =
        ({"https://www.fake.link.com/test_2019.zip",
          "https://www.fake.link.com/test_2020.zip",
          "https://www.fake.link.com/not/a/match/"} : Finset String) := by
  refine ⟨?_, fun _ _ => rfl, fun _ => rfl, by decide, by decide⟩
  intro events s
  rw [extractHyperlinks, mem_extract_aux]
  simp

/-- Claim C9, counterexample: on a baseline manifest whose sizes sum to
zero, the aggregate size check raises inside validate_dataset, so the
orchestrator returns no list of results at all, contradicting the claim
that every check runs and every result is returned for every input. -/
theorem claim_C9_counterexample :
    validate_dataset defaultConfig (some dpZeroTotal) dpNew115 []
      dataset_validate_archive = Except.error PyErr.zeroDivisionError := by
  decide

/-- Claim C9, amended: whenever the aggregate size check and the
continuity check return results (rather than raising), validate_dataset
returns exactly the missing-files result, the per-file size result, the
aggregate size result and the continuity result, in that order, followed
by the accumulated file-level validations and the results of the
dataset-specific hook, without short-circuiting on failed checks; the
default hook contributes no results. -/
theorem claim_C9_amended (cfg : Config) (baseline : Option DataPackage)
    (newDp : DataPackage) (fv : List DatasetSpecificValidation)
    (hook : Option DataPackage → DataPackage → List DatasetSpecificValidation)
    (d c : DatasetSpecificValidation)
    (hd : check_dataset_size cfg baseline newDp = Except.ok d)
    (hc : check_data_continuity cfg newDp = Except.ok c) :
    validate_dataset cfg baseline newDp fv hook =
      Except.ok ([check_missing_files cfg baseline newDp,
        check_file_size cfg baseline newDp, d, c] ++ fv ++ hook baseline newDp)
    ∧ dataset_validate_archive baseline newDp = [] := by
  refine ⟨?_, rfl⟩
  rw [validate_dataset]
  simp only [bind, Except.bind, hd, hc]

/-- Claim C9, witness: the amended statement evaluated with a null
baseline, the year-and-table manifest, no accumulated file validations and
the default hook, under a whole-number threshold configuration. -/
theorem claim_C9_witness :
    check_dataset_size cfgOne none dpYearTable = Except.ok dsizeResultNone
    ∧ check_data_continuity cfgOne dpYearTable = Except.ok continuityNotConfigured
    ∧ (validate_dataset cfgOne none dpYearTable [] dataset_validate_archive =
        Except.ok ([check_missing_files cfgOne none dpYearTable,
          check_file_size cfgOne none dpYearTable, dsizeResultNone,
          continuityNotConfigured] ++ [] ++ dataset_validate_archive none dpYearTable)
      ∧ dataset_validate_archive none dpYearTable = []) :=
  ⟨by decide, by decide,
   claim_C9_amended cfgOne none dpYearTable [] dataset_validate_archive
     dsizeResultNone continuityNotConfigured (by decide) (by decide)⟩

/-- Claim C10: the zipfile retry loop is fully characterized by the index
of the first valid download attempt: it stops with success right after
that attempt, makes at most the allowed number of download calls, returns
success exactly when some attempt within the allowance produces a valid
zipfile, and with a zero allowance raises RuntimeError without any
download. -/
theorem claim_C10 {α : Type} (d : Nat → α) (v : α → Bool) (retries : Nat) :
    (download_zipfile d v retries =
      (match first_valid d v retries with
       | some i => (Except.ok (), i + 1)
       | none => (Except.error PyErr.runtimeError, retries)))
    ∧ (download_zipfile d v retries).2 ≤ retries
    ∧ ((download_zipfile d v retries).1 = Except.ok () ↔
        ∃ i < retries, v (d i) = true)
    ∧ download_zipfile d v 0 = (Except.error PyErr.runtimeError, 0) := by
  have key : download_zipfile d v retries =
      (match first_valid d v retries with
       | some i => (Except.ok (), i + 1)
       | none => (Except.error PyErr.runtimeError, retries)) := by
    rw [download_zipfile, download_zipfile_from_eq, first_valid, List.range_eq_range']
    simp
  refine ⟨key, ?_, ?_, by simp [download_zipfile, download_zipfile_from]⟩
  · rw [key]
    cases hf : first_valid d v retries with
    | none => simp
    | some i =>
        have hi : i ∈ List.range retries := List.mem_of_find?_eq_some hf
        simp only []
        exact Nat.succ_le_of_lt (List.mem_range.mp hi)
  · rw [key]
    cases hf : first_valid d v retries with
    | none =>
        simp only []
        constructor
        · intro h
          exact absurd h (by simp)
        · rintro ⟨i, hi, hv⟩
          have : (List.range retries).find? (fun j => v (d j)) ≠ none := by
            intro hn
            have := List.find?_eq_none.mp hn i (List.mem_range.mpr hi)
            simp [hv] at this
          exact absurd hf this
    | some i =>
        have hi : i ∈ List.range retries := List.mem_of_find?_eq_some hf
        have hv : v (d i) = true := by
          have := List.find?_some hf
          simpa using this
        simp only []
        constructor
        · intro _
          exact ⟨i, List.mem_range.mp hi, hv⟩
        · intro _
          trivial
